import Mathlib

/-!
Shallow embedding of the django-ec backend (api/views.py, api/utils.py,
Project/urls.py, api/management/commands/seed.py) and proofs about its
request handlers: cart quantity updates, review visibility, order
cancellation, catalog permissions, wishlist add_item, and the PDF invoice
layout.
-/

/-- A Python exception class relevant to the embedded handlers. -/
inductive PyExc
  | valueError
  | typeError
  | http404
  deriving DecidableEq, Repr

/-- A value read from `request.data.get("quantity")`: absent (None), a JSON
integer, or a JSON string. -/
inductive ReqValue
  | vNone
  | vInt (n : Int)
  | vStr (s : String)
  deriving DecidableEq, Repr

/-- Strip leading and trailing whitespace from a character list. -/
def pyStripWs (l : List Char) : List Char :=
  ((l.dropWhile Char.isWhitespace).reverse.dropWhile Char.isWhitespace).reverse

/-- Read a nonempty all-digit character list as a natural number. -/
def pyDigits? (l : List Char) : Option Nat :=
  if l ≠ [] ∧ l.all Char.isDigit then
    some (l.foldl (fun a c => 10 * a + (c.toNat - 48)) 0)
  else none

/-- Python `int(s)` on a string: strip whitespace, optional sign, decimal
digits; anything else raises ValueError (modelled as `none`). -/
def pyParseInt (s : String) : Option Int :=
  match pyStripWs s.data with
  | '-' :: rest => (pyDigits? rest).map (fun n => -(n : Int))
  | '+' :: rest => (pyDigits? rest).map (fun n => (n : Int))
  | l => (pyDigits? l).map (fun n => (n : Int))

/-- Python `int(x)` applied to a request value: an integer passes through, a
string is parsed or raises ValueError, None raises TypeError. -/
def pyIntOf : ReqValue → Except PyExc Int
  | ReqValue.vNone => Except.error PyExc.typeError
  | ReqValue.vInt n => Except.ok n
  | ReqValue.vStr s =>
      match pyParseInt s with
      | some n => Except.ok n
      | none => Except.error PyExc.valueError

/-- The state of one cart item that `update_quantity` reads and writes: the
related product's stock and the item's current quantity. -/
structure CartItemRec where
  product_stock : Nat
  quantity : Int
  deriving DecidableEq, Repr

/-- Outcome of the `update_quantity` handler: a 200 response with the saved
quantity, a 400 response with an error message, or an exception escaping the
handler uncaught. -/
inductive UQResult
  | ok (newQuantity : Int)
  | badRequest (msg : String)
  | uncaught (e : PyExc)
  deriving DecidableEq, Repr

/-- Embeds `CartItemViewSet.update_quantity` (views.py 323-343).  The guard line
`if quantity is None or int(quantity) < 1` short-circuits on None, and its
`int(quantity)` call sits outside the try/except; inside the try the value is
converted again (which can no longer fail) and checked against stock. -/
def update_quantity (item : CartItemRec) (q : ReqValue) : UQResult × CartItemRec :=
  match q with
  | ReqValue.vNone => (UQResult.badRequest "Quantity must be at least 1", item)
  | _ =>
    match pyIntOf q with
    | Except.error e => (UQResult.uncaught e, item)
    | Except.ok n =>
      if n < 1 then (UQResult.badRequest "Quantity must be at least 1", item)
      else if n > (item.product_stock : Int) then
        (UQResult.badRequest "Not enough stock", item)
      else (UQResult.ok n, { item with quantity := n })

/-- C1: for an integer quantity, `update_quantity` rejects values below 1 with
a 400 "Quantity must be at least 1" leaving the item unchanged, rejects values
above the product's stock with a 400 "Not enough stock" leaving the item
unchanged, and otherwise stores exactly the given value and returns it. -/
theorem C1_update_quantity_integer (item : CartItemRec) (n : Int) :
    (n < 1 →
      update_quantity item (ReqValue.vInt n)
        = (UQResult.badRequest "Quantity must be at least 1", item)) ∧
    (1 ≤ n → (item.product_stock : Int) < n →
      update_quantity item (ReqValue.vInt n)
        = (UQResult.badRequest "Not enough stock", item)) ∧
    (1 ≤ n → n ≤ (item.product_stock : Int) →
      update_quantity item (ReqValue.vInt n)
        = (UQResult.ok n, { item with quantity := n })) := by
  refine ⟨fun h => ?_, fun h1 h2 => ?_, fun h1 h2 => ?_⟩
  · simp only [update_quantity, pyIntOf]
    rw [if_pos h]
  · simp only [update_quantity, pyIntOf]
    rw [if_neg (by omega), if_pos (by omega)]
  · simp only [update_quantity, pyIntOf]
    rw [if_neg (by omega), if_neg (by omega)]

/-- C1 witness: with stock 5 and current quantity 1, setting quantity 3
succeeds and stores 3. -/
theorem C1_update_quantity_integer_witness :
    update_quantity ⟨5, 1⟩ (ReqValue.vInt 3) = (UQResult.ok 3, ⟨5, 3⟩) :=
  (C1_update_quantity_integer ⟨5, 1⟩ 3).2.2 (by decide) (by decide)

/-- C8: a quantity string that does not parse as an integer makes the
`int(quantity)` on the guard line raise ValueError outside the try/except, so
the handler ends with an uncaught exception and the item unchanged; the
except-branch's 400 "Invalid quantity" response is never produced. -/
theorem C8_nonnumeric_string_uncaught (item : CartItemRec) (s : String)
    (h : pyParseInt s = none) :
    update_quantity item (ReqValue.vStr s)
        = (UQResult.uncaught PyExc.valueError, item) ∧
    update_quantity item (ReqValue.vStr s)
        ≠ (UQResult.badRequest "Invalid quantity", item) := by
  constructor
  · simp [update_quantity, pyIntOf, h]
  · simp [update_quantity, pyIntOf, h]

/-- C8 witness: the string "abc" does not parse, and at stock 5, quantity 1
the handler raises an uncaught ValueError. -/
theorem C8_nonnumeric_string_uncaught_witness :
    update_quantity ⟨5, 1⟩ (ReqValue.vStr "abc")
        = (UQResult.uncaught PyExc.valueError, ⟨5, 1⟩) :=
  (C8_nonnumeric_string_uncaught ⟨5, 1⟩ "abc" (by decide)).1

/-- The requesting user as the handlers see it: primary key, staff flag, and
authentication flag (Django's AnonymousUser has both flags false). -/
structure Requester where
  id : Nat
  is_staff : Bool
  is_authenticated : Bool
  deriving DecidableEq, Repr

/-- One review row: authoring user's primary key and the optional admin
response (NULL modelled as `none`). -/
structure Review where
  rid : Nat
  user : Nat
  admin_response : Option String
  deriving DecidableEq, Repr

/-- Embeds `ReviewViewSet.get_queryset` (views.py 203-211): staff see every review;
authenticated non-staff see rows matching
`Q(user=request.user) | Q(admin_response__isnull=False)`; anonymous users see
rows matching `admin_response__isnull=False`. -/
def review_get_queryset (req : Requester) (reviews : List Review) : List Review :=
  if req.is_staff then reviews
  else if req.is_authenticated then
    reviews.filter (fun r => r.user == req.id || r.admin_response.isSome)
  else
    reviews.filter (fun r => r.admin_response.isSome)

/-- C2: through `ReviewViewSet`, a staff user lists all reviews; a non-staff
authenticated user lists exactly the reviews they authored plus those with a
non-null admin_response; an anonymous user lists exactly the reviews with a
non-null admin_response. -/
theorem C2_review_visibility (req : Requester) (reviews : List Review) :
    (req.is_staff = true → review_get_queryset req reviews = reviews) ∧
    (req.is_staff = false → req.is_authenticated = true →
      ∀ r : Review, r ∈ review_get_queryset req reviews ↔
        r ∈ reviews ∧ (r.user = req.id ∨ r.admin_response ≠ none)) ∧
    (req.is_staff = false → req.is_authenticated = false →
      ∀ r : Review, r ∈ review_get_queryset req reviews ↔
        r ∈ reviews ∧ r.admin_response ≠ none) := by
  refine ⟨fun hs => ?_, fun hs ha r => ?_, fun hs ha r => ?_⟩
  · simp [review_get_queryset, hs]
  · simp [review_get_queryset, hs, ha, List.mem_filter, Option.isSome_iff_ne_none]
  · simp [review_get_queryset, hs, ha, List.mem_filter, Option.isSome_iff_ne_none]

/-- C2 witness: for an authenticated non-staff requester with id 1, a review
authored by user 2 with an admin response is listed. -/
theorem C2_review_visibility_witness :
    (⟨7, 2, some "ok"⟩ : Review) ∈
      review_get_queryset ⟨1, false, true⟩ [⟨7, 2, some "ok"⟩] :=
  ((C2_review_visibility ⟨1, false, true⟩ [⟨7, 2, some "ok"⟩]).2.1 rfl rfl
      ⟨7, 2, some "ok"⟩).mpr ⟨by decide, Or.inr (by decide)⟩

/-- A DRF permission object as instantiated by the catalog viewsets. -/
inductive Permission
  | isAdminUser
  | allowAny
  deriving DecidableEq, Repr

/-- DRF semantics of the two permission classes: `IsAdminUser` grants access
iff the requester is staff, `AllowAny` always grants access. -/
def permits : Permission → Requester → Bool
  | Permission.isAdminUser, r => r.is_staff
  | Permission.allowAny, _ => true

/-- The four ModelViewSet write actions guarded by the catalog viewsets. -/
def writeActions : List String := ["create", "update", "partial_update", "destroy"]

/-- Embeds `CategoryViewSet.get_permissions` (views.py 28-31). -/
def category_get_permissions (a : String) : Permission :=
  if a ∈ writeActions then Permission.isAdminUser else Permission.allowAny

/-- Embeds `BrandViewSet.get_permissions` (views.py 53-56). -/
def brand_get_permissions (a : String) : Permission :=
  if a ∈ writeActions then Permission.isAdminUser else Permission.allowAny

/-- Embeds `TagViewSet.get_permissions` (views.py 77-80). -/
def tag_get_permissions (a : String) : Permission :=
  if a ∈ writeActions then Permission.isAdminUser else Permission.allowAny

/-- Embeds `ProductViewSet.get_permissions` (views.py 96-99). -/
def product_get_permissions (a : String) : Permission :=
  if a ∈ writeActions then Permission.isAdminUser else Permission.allowAny

/-- Embeds `ProductImageViewSet.get_permissions` (views.py 160-163). -/
def productimage_get_permissions (a : String) : Permission :=
  if a ∈ writeActions then Permission.isAdminUser else Permission.allowAny

/-- Embeds `ProductFileViewSet.get_permissions` (views.py 173-176). -/
def productfile_get_permissions (a : String) : Permission :=
  if a ∈ writeActions then Permission.isAdminUser else Permission.allowAny

/-- C5: for each of the six catalog viewsets, the permission granted to a
requester equals the boolean predicate "action is a write implies requester is
staff"; in particular writes demand a staff user and every other action is
open to anyone, anonymous included. -/
theorem C5_catalog_permissions (a : String) (r : Requester) :
    permits (category_get_permissions a) r = (!decide (a ∈ writeActions) || r.is_staff) ∧
    permits (brand_get_permissions a) r = (!decide (a ∈ writeActions) || r.is_staff) ∧
    permits (tag_get_permissions a) r = (!decide (a ∈ writeActions) || r.is_staff) ∧
    permits (product_get_permissions a) r = (!decide (a ∈ writeActions) || r.is_staff) ∧
    permits (productimage_get_permissions a) r = (!decide (a ∈ writeActions) || r.is_staff) ∧
    permits (productfile_get_permissions a) r = (!decide (a ∈ writeActions) || r.is_staff) := by
  by_cases h : a ∈ writeActions <;>
    simp [category_get_permissions, brand_get_permissions, tag_get_permissions,
      product_get_permissions, productimage_get_permissions,
      productfile_get_permissions, permits, h]

/-- A wishlist row: the owning user's primary key. -/
structure Wishlist where
  user : Nat
  deriving DecidableEq, Repr

/-- A wishlist item row: the owning wishlist's user and the product. -/
structure WishlistItem where
  wishlist_user : Nat
  product_id : Nat
  deriving DecidableEq, Repr

/-- A cart row: the owning user's primary key. -/
structure Cart where
  user : Nat
  deriving DecidableEq, Repr

/-- A cart item row: the owning cart's user, the product, and a quantity. -/
structure CartItemRow where
  cart_user : Nat
  product_id : Nat
  qty : Nat
  deriving DecidableEq, Repr

/-- Embeds `WishlistViewSet.get_queryset` (views.py 243-244):
`Wishlist.objects.filter(user=self.request.user)`. -/
def wishlist_get_queryset (uid : Nat) (rows : List Wishlist) : List Wishlist :=
  rows.filter (fun w => w.user == uid)

/-- Embeds `WishlistItemViewSet.get_queryset` (views.py 287-288):
`WishlistItem.objects.filter(wishlist__user=self.request.user)`. -/
def wishlistitem_get_queryset (uid : Nat) (rows : List WishlistItem) : List WishlistItem :=
  rows.filter (fun it => it.wishlist_user == uid)

/-- Embeds `CartViewSet.get_queryset` (views.py 299-300):
`Cart.objects.filter(user=self.request.user)`. -/
def cart_get_queryset (uid : Nat) (rows : List Cart) : List Cart :=
  rows.filter (fun c => c.user == uid)

/-- Embeds `CartItemViewSet.get_queryset` (views.py 316-317):
`CartItem.objects.filter(cart__user=self.request.user)`. -/
def cartitem_get_queryset (uid : Nat) (rows : List CartItemRow) : List CartItemRow :=
  rows.filter (fun it => it.cart_user == uid)

/-- Embeds `Wishlist.objects.get_or_create(user=request.user)`: return the user's
existing wishlist or a fresh one owned by the user. -/
def get_or_create_wishlist (uid : Nat) (rows : List Wishlist) : Wishlist :=
  match rows.find? (fun w => w.user == uid) with
  | some w => w
  | none => ⟨uid⟩

/-- Embeds `Cart.objects.get_or_create(user=request.user)`: return the user's
existing cart or a fresh one owned by the user. -/
def get_or_create_cart (uid : Nat) (rows : List Cart) : Cart :=
  match rows.find? (fun c => c.user == uid) with
  | some c => c
  | none => ⟨uid⟩

/-- Embeds `WishlistViewSet.perform_create` (views.py 246-247):
`serializer.save(user=self.request.user)`. -/
def wishlist_perform_create (uid : Nat) : Wishlist := ⟨uid⟩

/-- Embeds `CartViewSet.perform_create` (views.py 302-303):
`serializer.save(user=self.request.user)`. -/
def cart_perform_create (uid : Nat) : Cart := ⟨uid⟩

/-- Embeds `WishlistItemViewSet.perform_create` (views.py 290-292): get or create the
requester's wishlist, then `serializer.save(wishlist=wishlist)`. -/
def wishlistitem_perform_create (uid : Nat) (rows : List Wishlist) (pid : Nat) :
    WishlistItem :=
  ⟨(get_or_create_wishlist uid rows).user, pid⟩

/-- Embeds `CartItemViewSet.perform_create` (views.py 319-321): get or create the
requester's cart, then `serializer.save(cart=cart)`. -/
def cartitem_perform_create (uid : Nat) (rows : List Cart) (pid : Nat) (q : Nat) :
    CartItemRow :=
  ⟨(get_or_create_cart uid rows).user, pid, q⟩

/-- The user's existing wishlist found by get_or_create is owned by the user. -/
theorem get_or_create_wishlist_user (uid : Nat) (rows : List Wishlist) :
    (get_or_create_wishlist uid rows).user = uid := by
  unfold get_or_create_wishlist
  cases h : rows.find? (fun w => w.user == uid) with
  | none => rfl
  | some w =>
    have := List.find?_some h
    simpa using this

/-- The user's existing cart found by get_or_create is owned by the user. -/
theorem get_or_create_cart_user (uid : Nat) (rows : List Cart) :
    (get_or_create_cart uid rows).user = uid := by
  unfold get_or_create_cart
  cases h : rows.find? (fun c => c.user == uid) with
  | none => rfl
  | some c =>
    have := List.find?_some h
    simpa using this

/-- C4: wishlists and carts are per-user.  Every row produced by the wishlist,
wishlist-item, cart and cart-item querysets is owned by the requesting user,
and every perform_create attaches the created object to the requesting user's
own wishlist or cart. -/
theorem C4_per_user_ownership (uid : Nat) (ws : List Wishlist)
    (wis : List WishlistItem) (cs : List Cart) (cis : List CartItemRow)
    (pid q : Nat) :
    (∀ w ∈ wishlist_get_queryset uid ws, w.user = uid) ∧
    (∀ it ∈ wishlistitem_get_queryset uid wis, it.wishlist_user = uid) ∧
    (∀ c ∈ cart_get_queryset uid cs, c.user = uid) ∧
    (∀ it ∈ cartitem_get_queryset uid cis, it.cart_user = uid) ∧
    (wishlist_perform_create uid).user = uid ∧
    (cart_perform_create uid).user = uid ∧
    (wishlistitem_perform_create uid ws pid).wishlist_user = uid ∧
    (cartitem_perform_create uid cs pid q).cart_user = uid := by
  refine ⟨?_, ?_, ?_, ?_, rfl, rfl, ?_, ?_⟩
  · intro w hw
    have := (List.mem_filter.mp hw).2
    simpa using this
  · intro it hit
    have := (List.mem_filter.mp hit).2
    simpa using this
  · intro c hc
    have := (List.mem_filter.mp hc).2
    simpa using this
  · intro it hit
    have := (List.mem_filter.mp hit).2
    simpa using this
  · exact get_or_create_wishlist_user uid ws
  · exact get_or_create_cart_user uid cs

/-- C4 witness: user 1's wishlist queryset over a two-user table yields only
rows owned by user 1, and creating a cart item attaches it to user 1's cart. -/
theorem C4_per_user_ownership_witness :
    (∀ w ∈ wishlist_get_queryset 1 [⟨1⟩, ⟨2⟩], w.user = 1) ∧
    (cartitem_perform_create 1 [⟨2⟩] 9 3).cart_user = 1 :=
  ⟨(C4_per_user_ownership 1 [⟨1⟩, ⟨2⟩] [] [⟨2⟩] [] 9 3).1,
   (C4_per_user_ownership 1 [⟨1⟩, ⟨2⟩] [] [⟨2⟩] [] 9 3).2.2.2.2.2.2.2⟩

/-- A product row as `add_item` queries it: primary key and availability. -/
structure Product where
  pid : Nat
  is_available : Bool
  deriving DecidableEq, Repr

/-- Database state touched by `WishlistViewSet.add_item`: the product table,
the wishlist table, and the wishlist-item table. -/
structure WLState where
  products : List Product
  wishlists : List Wishlist
  items : List WishlistItem
  deriving DecidableEq, Repr

/-- Response of the `add_item` handler: 201 created, 200 already present, or
404 product not found. -/
inductive AddItemResult
  | created
  | alreadyInWishlist
  | notFound
  deriving DecidableEq, Repr

/-- The wishlist table after `Wishlist.objects.get_or_create(user=uid)`: a row
for the user is appended exactly when none exists. -/
def ensure_wishlist (uid : Nat) (rows : List Wishlist) : List Wishlist :=
  if (rows.find? (fun w => w.user == uid)).isSome then rows else rows ++ [⟨uid⟩]

/-- Embeds `WishlistViewSet.add_item` (views.py 255-269): look up an available
product by id (404 on failure), get or create the requester's wishlist, then
get or create the wishlist item; respond 201 when the item was created and 200
when it already existed. -/
def add_item (uid : Nat) (pid : Nat) (st : WLState) : AddItemResult × WLState :=
  match st.products.find? (fun p => p.pid == pid && p.is_available) with
  | none => (AddItemResult.notFound, st)
  | some p =>
    let wishlists := ensure_wishlist uid st.wishlists
    match st.items.find? (fun it => it.wishlist_user == uid && it.product_id == p.pid) with
    | some _ => (AddItemResult.alreadyInWishlist, ⟨st.products, wishlists, st.items⟩)
    | none =>
      (AddItemResult.created, ⟨st.products, wishlists, st.items ++ [⟨uid, p.pid⟩]⟩)

/-- Ensuring a wishlist leaves a row for the user in the table. -/
theorem ensure_wishlist_has (uid : Nat) (rows : List Wishlist) :
    ((ensure_wishlist uid rows).find? (fun w => w.user == uid)).isSome := by
  unfold ensure_wishlist
  by_cases h : (rows.find? (fun w => w.user == uid)).isSome
  · simp only [if_pos h]
    exact h
  · rw [if_neg h, List.find?_isSome]
    exact ⟨⟨uid⟩, by simp, by simp⟩

/-- C10: `add_item` is idempotent on the wishlist item set.  When no available
product matches the id the response is 404 and the state is unchanged; when an
available product matches, a first add appends exactly that one item and
responds 201, an add of an already-present product leaves the item set
unchanged and responds 200, and running the action a second time never changes
the item set again. -/
theorem C10_add_item_idempotent (uid pid : Nat) (st : WLState) :
    ((∀ q ∈ st.products, ¬(q.pid = pid ∧ q.is_available = true)) →
      add_item uid pid st = (AddItemResult.notFound, st)) ∧
    (∀ p, st.products.find? (fun q => q.pid == pid && q.is_available) = some p →
      (((⟨uid, p.pid⟩ : WishlistItem) ∈ st.items →
        (add_item uid pid st).1 = AddItemResult.alreadyInWishlist ∧
        (add_item uid pid st).2.items = st.items) ∧
      ((⟨uid, p.pid⟩ : WishlistItem) ∉ st.items →
        (add_item uid pid st).1 = AddItemResult.created ∧
        (add_item uid pid st).2.items = st.items ++ [⟨uid, p.pid⟩]) ∧
      (add_item uid pid (add_item uid pid st).2).2.items
        = (add_item uid pid st).2.items)) := by
  constructor
  · intro hnone
    have h : st.products.find? (fun q => q.pid == pid && q.is_available) = none := by
      rw [List.find?_eq_none]
      intro q hq
      simp only [Bool.and_eq_true, beq_iff_eq]
      intro hcontra
      exact hnone q hq ⟨hcontra.1, hcontra.2⟩
    simp [add_item, h]
  · intro p hp
    have hmemitem : ∀ it ∈ st.items,
        (it.wishlist_user == uid && it.product_id == p.pid) = true →
        it = (⟨uid, p.pid⟩ : WishlistItem) := by
      intro it _ hpred
      obtain ⟨a, b⟩ := it
      simp only [Bool.and_eq_true, beq_iff_eq] at hpred
      simp [hpred.1, hpred.2]
    refine ⟨fun hin => ?_, fun hout => ?_, ?_⟩
    · cases hf : st.items.find? (fun it => it.wishlist_user == uid && it.product_id == p.pid) with
      | none =>
        exact absurd (by simp : ((⟨uid, p.pid⟩ : WishlistItem).wishlist_user == uid
          && (⟨uid, p.pid⟩ : WishlistItem).product_id == p.pid) = true)
          (List.find?_eq_none.mp hf _ hin)
      | some it => simp [add_item, hp, hf]
    · have hf : st.items.find?
          (fun it => it.wishlist_user == uid && it.product_id == p.pid) = none := by
        rw [List.find?_eq_none]
        intro it hit hpred
        exact hout (hmemitem it hit hpred ▸ hit)
      simp [add_item, hp, hf]
    · cases hf : st.items.find? (fun it => it.wishlist_user == uid && it.product_id == p.pid) with
      | some it =>
        have h1 : add_item uid pid st
            = (AddItemResult.alreadyInWishlist,
               ⟨st.products, ensure_wishlist uid st.wishlists, st.items⟩) := by
          simp [add_item, hp, hf]
        rw [h1]
        simp [add_item, hp, hf]
      | none =>
        have h1 : add_item uid pid st
            = (AddItemResult.created,
               ⟨st.products, ensure_wishlist uid st.wishlists,
                st.items ++ [⟨uid, p.pid⟩]⟩) := by
          simp [add_item, hp, hf]
        rw [h1]
        have hf2 : (st.items ++ [(⟨uid, p.pid⟩ : WishlistItem)]).find?
            (fun it => it.wishlist_user == uid && it.product_id == p.pid)
            = some ⟨uid, p.pid⟩ := by
          rw [List.find?_append, hf]
          simp
        simp [add_item, hp, hf2]

/-- C10 witness: with product 9 available and an empty wishlist, a first add
creates the single item (9 in user 1's wishlist) and responds 201. -/
theorem C10_add_item_idempotent_witness :
    (add_item 1 9 ⟨[⟨9, true⟩], [], []⟩).1 = AddItemResult.created ∧
    (add_item 1 9 ⟨[⟨9, true⟩], [], []⟩).2.items = [⟨1, 9⟩] :=
  ((C10_add_item_idempotent 1 9 ⟨[⟨9, true⟩], [], []⟩).2 ⟨9, true⟩
      (by decide)).2.1 (by decide)

/-- An order item row: the product name as rendered, the price recorded at
order time (`price=product.price` in seed.py 271-276), and the quantity. -/
structure OrderItem where
  product_name : String
  price : ℚ
  quantity : Nat
  deriving DecidableEq, Repr

/-- An order row with the fields read by the cancel action and the PDF
generator; rendered-only values (dates, display strings) are carried as the
strings the third-party formatters produce. -/
structure Order where
  oid : Nat
  user_id : Nat
  status : String
  order_number : String
  created_at_str : String
  status_display : String
  user_full_name : String
  user_email : String
  phone_number : String
  shipping_address : String
  customer_notes : Option String
  items : List OrderItem
  total_amount : ℚ
  deriving DecidableEq, Repr

/-- Modelled from the spec: `OrderItem.total_price` lives in api/models.py,
which is not among the provided sources; the spec describes it as "the item's
recorded price multiplied by its quantity". -/
def total_price (i : OrderItem) : ℚ := i.price * (i.quantity : ℚ)

/-- Modelled from the spec: `Order.update_total_amount` lives in
api/models.py, which is not among the provided sources; the spec describes
"order total computation" as setting the order's total to the sum of its
items' totals (seed.py 279-280 calls it right after creating the items). -/
def update_total_amount (o : Order) : Order :=
  { o with total_amount := (o.items.map total_price).sum }

/-- Python truthiness of an optional text field: None and the empty string
are falsy. -/
def pyTruthyStr : Option String → Bool
  | none => false
  | some s => !s.isEmpty

/-- A rendered table cell: literal text, a money value (shown as
`f"{x:.2f} ₽"`), or a number (shown via `str`). -/
inductive Cell
  | txt (s : String)
  | money (q : ℚ)
  | num (n : Nat)
  deriving DecidableEq, Repr

/-- A flowable appended to the PDF's element list. -/
inductive PdfElement
  | paragraph (text : String)
  | spacer (h : Nat)
  | table (rows : List (List Cell))
  deriving DecidableEq, Repr

/-- The order metadata table of `generate_order_pdf` (utils.py 35-44): rows
for date, status, buyer, phone and shipping address, plus a comment row
exactly when `order.customer_notes` is truthy. -/
def order_info (o : Order) : List (List Cell) :=
  [[Cell.txt "Дата заказа:", Cell.txt o.created_at_str],
   [Cell.txt "Статус:", Cell.txt o.status_display],
   [Cell.txt "Покупатель:", Cell.txt (o.user_full_name ++ " (" ++ o.user_email ++ ")")],
   [Cell.txt "Телефон:", Cell.txt o.phone_number],
   [Cell.txt "Адрес доставки:", Cell.txt o.shipping_address]]
  ++ (if pyTruthyStr o.customer_notes then
        [[Cell.txt "Комментарий:", Cell.txt (o.customer_notes.getD "")]]
      else [])

/-- The line-item table of `generate_order_pdf` (utils.py 63-68): a header
row, one row per order item, and a final total row. -/
def items_data (o : Order) : List (List Cell) :=
  [[Cell.txt "Товар", Cell.txt "Цена", Cell.txt "Кол-во", Cell.txt "Сумма"]]
  ++ o.items.map (fun i =>
      [Cell.txt i.product_name, Cell.money i.price, Cell.num i.quantity,
       Cell.money (total_price i)])
  ++ [[Cell.txt "", Cell.txt "", Cell.txt "ИТОГО:", Cell.money o.total_amount]]

/-- The element list `generate_order_pdf` builds and hands to `doc.build`
(utils.py 22-89): title paragraph, spacer, metadata table, spacer, section
heading, line-item table. -/
def generate_order_pdf_elements (o : Order) : List PdfElement :=
  [PdfElement.paragraph ("ЗАКАЗ № " ++ o.order_number),
   PdfElement.spacer 10,
   PdfElement.table (order_info o),
   PdfElement.spacer 20,
   PdfElement.paragraph "Состав заказа:",
   PdfElement.table (items_data o)]

/-- A Python value passed as a positional argument. -/
inductive PyValue
  | vOrder (o : Order)
  | vRequest
  | vId (n : Nat)
  deriving DecidableEq, Repr

/-- Outcome of calling the PDF generator: an HTTP PDF response (carrying the
order number used in the filename and the built elements) or a raised
exception. -/
inductive PdfCallResult
  | response (order_number : String) (elements : List PdfElement)
  | exc (e : PyExc)
  deriving DecidableEq, Repr

/-- Embeds `utils.generate_order_pdf` (utils.py 14-90) as a Python callable over a
positional-argument list.  Its signature is `(request, order_id)`; a call
whose arguments do not bind those two parameters — in particular the
one-argument call in views.py 17 — raises TypeError before the body runs.
With a request and an order id the body looks the order up (Http404 when
absent) and returns the PDF response. -/
def generate_order_pdf (orders : List Order) (args : List PyValue) : PdfCallResult :=
  match args with
  | [PyValue.vRequest, PyValue.vId order_id] =>
    match orders.find? (fun o => o.oid == order_id) with
    | none => PdfCallResult.exc PyExc.http404
    | some o => PdfCallResult.response o.order_number (generate_order_pdf_elements o)
  | _ => PdfCallResult.exc PyExc.typeError

/-- Embeds `generate_order_pdf_view` (views.py 14-17): `get_object_or_404` the order,
then call `generate_order_pdf(order)` with the Order object as the only
argument. -/
def generate_order_pdf_view (orders : List Order) (order_id : Nat) : PdfCallResult :=
  match orders.find? (fun o => o.oid == order_id) with
  | none => PdfCallResult.exc PyExc.http404
  | some o => generate_order_pdf orders [PyValue.vOrder o]

/-- The URL route `admin/orders/order/<int:order_id>/pdf/` (Project/urls.py
8-12): it imports `generate_order_pdf` from api.views, which re-exports the
utils function, so the route calls it as `(request, order_id)`. -/
def pdf_url_route (orders : List Order) (order_id : Nat) : PdfCallResult :=
  generate_order_pdf orders [PyValue.vRequest, PyValue.vId order_id]

/-- C3: after `update_total_amount` the order's total_amount is the sum over
its items of recorded price times quantity — each item's total_price — and the
PDF's final ИТОГО row renders exactly that total_amount. -/
theorem C3_total_amount_sum (o : Order) :
    (update_total_amount o).total_amount
        = ((update_total_amount o).items.map total_price).sum ∧
    (∀ i : OrderItem, total_price i = i.price * (i.quantity : ℚ)) ∧
    (items_data (update_total_amount o)).getLast?
        = some [Cell.txt "", Cell.txt "", Cell.txt "ИТОГО:",
                Cell.money (((update_total_amount o).items.map total_price).sum)] := by
  refine ⟨rfl, fun i => rfl, ?_⟩
  simp only [items_data]
  rw [List.append_assoc, List.getLast?_append, List.getLast?_concat]
  rfl

/-- C6: `generate_order_pdf` lays the document out in order — a header
paragraph containing the order number, a metadata table whose rows are
labelled date, status, buyer, phone and shipping address with a comment row
exactly when customer_notes is truthy, and a line-item table with one header
row, one row per order item carrying name, price, quantity and line total,
ending in a total row that shows the order's total_amount. -/
theorem C6_pdf_layout (o : Order) :
    ((generate_order_pdf_elements o).head?
        = some (PdfElement.paragraph ("ЗАКАЗ № " ++ o.order_number))) ∧
    ((generate_order_pdf_elements o)[2]? = some (PdfElement.table (order_info o)) ∧
      (order_info o).map List.head?
        = [some (Cell.txt "Дата заказа:"), some (Cell.txt "Статус:"),
           some (Cell.txt "Покупатель:"), some (Cell.txt "Телефон:"),
           some (Cell.txt "Адрес доставки:")]
          ++ (if pyTruthyStr o.customer_notes then
                [some (Cell.txt "Комментарий:")] else [])) ∧
    ((generate_order_pdf_elements o)[5]? = some (PdfElement.table (items_data o)) ∧
      (items_data o).head?
        = some [Cell.txt "Товар", Cell.txt "Цена", Cell.txt "Кол-во", Cell.txt "Сумма"] ∧
      (items_data o).length = o.items.length + 2 ∧
      (∀ k, (h : k < o.items.length) →
        (items_data o)[k + 1]?
          = some [Cell.txt (o.items.get ⟨k, h⟩).product_name,
                  Cell.money (o.items.get ⟨k, h⟩).price,
                  Cell.num (o.items.get ⟨k, h⟩).quantity,
                  Cell.money (total_price (o.items.get ⟨k, h⟩))]) ∧
      (items_data o).getLast?
        = some [Cell.txt "", Cell.txt "", Cell.txt "ИТОГО:",
                Cell.money o.total_amount]) := by
  refine ⟨rfl, ⟨rfl, ?_⟩, rfl, rfl, ?_, fun k h => ?_, ?_⟩
  · by_cases hn : pyTruthyStr o.customer_notes <;> simp [order_info, hn]
  · simp [items_data]
  · simp only [items_data, List.cons_append, List.nil_append, List.getElem?_cons_succ]
    rw [List.getElem?_append_left (by simpa using h), List.getElem?_map,
      List.getElem?_eq_getElem h]
    simp [List.get_eq_getElem]
  · simp only [items_data]
    rw [List.append_assoc, List.getLast?_append, List.getLast?_concat]
    rfl

/-- C6 witness: the line-item table of a one-item order (price 10, quantity 2)
has its item row at index 1 with line total 20. -/
theorem C6_pdf_layout_witness :
    (items_data ⟨1, 1, "pending", "ORD-1", "01.01.2025 00:00", "В ожидании",
        "Ivan Ivanov", "ivan@example.com", "+70000000000", "Москва", none,
        [⟨"Товар А", 10, 2⟩], 20⟩)[1]?
      = some [Cell.txt "Товар А", Cell.money 10, Cell.num 2, Cell.money 20] := by
  have h := (C6_pdf_layout ⟨1, 1, "pending", "ORD-1", "01.01.2025 00:00",
    "В ожидании", "Ivan Ivanov", "ivan@example.com", "+70000000000", "Москва",
    none, [⟨"Товар А", 10, 2⟩], 20⟩).2.2.2.2.2.1 0 (by decide)
  have h2 : (10 : ℚ) * (2 : ℚ) = 20 := by norm_num
  simpa [total_price, h2] using h

/-- Response of the cancel endpoint: 200 with the order, 403, 400, or the 404
raised by `get_object` when the order is not in the requester's queryset. -/
inductive CancelResult
  | ok
  | forbidden
  | badRequest
  | notFound
  deriving DecidableEq, Repr

/-- Embeds `OrderViewSet.get_queryset` (views.py 353-356): staff see every order,
other users only their own. -/
def order_get_queryset (req : Requester) (orders : List Order) : List Order :=
  if req.is_staff then orders
  else orders.filter (fun o => o.user_id == req.id)

/-- DRF `self.get_object()` for a detail route on `OrderViewSet`: look the pk
up in the requester's queryset; `none` means Http404. -/
def order_get_object (req : Requester) (orders : List Order) (pk : Nat) : Option Order :=
  (order_get_queryset req orders).find? (fun o => o.oid == pk)

/-- Embeds `OrderViewSet.cancel` (views.py 371-385): fetch the order through
`get_object` (404 when absent from the requester's queryset), return 403 when
the requester is neither owner nor staff, 400 when the status is not pending
or processing, and otherwise save the order with status cancelled. -/
def cancel (req : Requester) (orders : List Order) (pk : Nat) : CancelResult × List Order :=
  match order_get_object req orders pk with
  | none => (CancelResult.notFound, orders)
  | some o =>
    if o.user_id != req.id && !req.is_staff then (CancelResult.forbidden, orders)
    else if o.status ∉ (["pending", "processing"] : List String) then
      (CancelResult.badRequest, orders)
    else
      (CancelResult.ok,
       orders.map (fun x => if x.oid == o.oid then { x with status := "cancelled" } else x))

/-- An order returned by `get_object` always defeats the in-body ownership
check: staff pass it trivially, and a non-staff requester's queryset only
contains their own orders. -/
theorem order_get_object_owner_check (req : Requester) (orders : List Order)
    (pk : Nat) (o : Order) (h : order_get_object req orders pk = some o) :
    (o.user_id != req.id && !req.is_staff) = false := by
  cases hs : req.is_staff with
  | true => simp
  | false =>
    have hmem := List.mem_of_find?_eq_some h
    unfold order_get_queryset at hmem
    rw [hs] at hmem
    simp only [Bool.false_eq_true, if_false] at hmem
    have := (List.mem_filter.mp hmem).2
    simp only [beq_iff_eq] at this
    simp [this]

/-- An order returned by `get_object` belongs to the order table. -/
theorem order_get_object_mem (req : Requester) (orders : List Order) (pk : Nat)
    (o : Order) (h : order_get_object req orders pk = some o) : o ∈ orders := by
  have hmem := List.mem_of_find?_eq_some h
  unfold order_get_queryset at hmem
  by_cases hs : req.is_staff = true
  · rwa [if_pos hs] at hmem
  · rw [if_neg hs] at hmem
    exact (List.mem_filter.mp hmem).1

/-- A pending sample order owned by user 1 with no items. -/
def sampleOrder : Order :=
  ⟨1, 1, "pending", "ORD-1", "01.01.2025 00:00", "В ожидании", "Ivan Ivanov",
   "ivan@example.com", "+70000000000", "Москва", none, [], 0⟩

/-- C7 counterexample: the claim's 403 case fails.  User 2, who is neither
the owner of the pending order 1 nor staff, receives 404 from the cancel
endpoint — the order is missing from their queryset, so `get_object` raises
Http404 before the 403 branch can run. -/
theorem C7_cancel_counterexample :
    (cancel ⟨2, false, true⟩ [sampleOrder] 1).1 = CancelResult.notFound ∧
    ¬((cancel ⟨2, false, true⟩ [sampleOrder] 1).1 = CancelResult.forbidden) := by
  decide

/-- C7 (amended): a non-staff requester who owns none of the orders with the
requested pk gets 404 with the table unchanged; when `get_object` yields the
order, a status outside pending/processing gets 400 with the table unchanged,
and otherwise the order's status becomes cancelled; in every case an order row
that ends up cancelled was already in the table or stems from a
pending/processing row with the same id. -/
theorem C7_cancel_amended (req : Requester) (orders : List Order) (pk : Nat) :
    (req.is_staff = false → (∀ o ∈ orders, o.oid = pk → o.user_id ≠ req.id) →
      cancel req orders pk = (CancelResult.notFound, orders)) ∧
    (∀ o, order_get_object req orders pk = some o →
      o.status ≠ "pending" → o.status ≠ "processing" →
      cancel req orders pk = (CancelResult.badRequest, orders)) ∧
    (∀ o, order_get_object req orders pk = some o →
      (o.status = "pending" ∨ o.status = "processing") →
      cancel req orders pk
        = (CancelResult.ok,
           orders.map (fun x =>
             if x.oid == o.oid then { x with status := "cancelled" } else x))) ∧
    (∀ o' ∈ (cancel req orders pk).2, o'.status = "cancelled" →
      o' ∈ orders ∨ ∃ x ∈ orders, x.oid = o'.oid ∧
        (x.status = "pending" ∨ x.status = "processing")) := by
  refine ⟨fun hs hown => ?_, fun o hobj h1 h2 => ?_, fun o hobj hpp => ?_,
    fun o' hmem hcanc => ?_⟩
  · have hobj : order_get_object req orders pk = none := by
      unfold order_get_object order_get_queryset
      rw [hs]
      simp only [Bool.false_eq_true, if_false, List.find?_eq_none]
      intro x hx
      have hx1 := (List.mem_filter.mp hx).1
      have hx2 := (List.mem_filter.mp hx).2
      simp only [beq_iff_eq] at hx2 ⊢
      intro hxo
      exact hown x hx1 hxo hx2
    simp [cancel, hobj]
  · simp only [cancel, hobj]
    rw [order_get_object_owner_check req orders pk o hobj]
    simp [h1, h2]
  · have hin : o.status ∈ (["pending", "processing"] : List String) := by
      rcases hpp with h | h <;> simp [h]
    simp only [cancel, hobj]
    rw [order_get_object_owner_check req orders pk o hobj]
    simp [hin]
  · cases hobj : order_get_object req orders pk with
    | none =>
      simp only [cancel, hobj] at hmem
      exact Or.inl hmem
    | some o =>
      simp only [cancel, hobj] at hmem
      rw [order_get_object_owner_check req orders pk o hobj] at hmem
      rw [if_neg Bool.false_ne_true] at hmem
      by_cases hst : o.status ∈ (["pending", "processing"] : List String)
      · rw [if_neg (not_not_intro hst)] at hmem
        rcases List.mem_map.mp hmem with ⟨x, hx, heq⟩
        by_cases hoid : (x.oid == o.oid) = true
        · rw [if_pos hoid] at heq
          refine Or.inr ⟨o, order_get_object_mem req orders pk o hobj, ?_, ?_⟩
          · rw [← heq]
            simpa using (beq_iff_eq.mp hoid).symm
          · simpa using hst
        · rw [if_neg hoid] at heq
          exact Or.inl (heq ▸ hx)
      · rw [if_pos hst] at hmem
        exact Or.inl hmem

/-- C7 witness: owner user 1 cancels their pending order 1; the status of the
single order row becomes cancelled. -/
theorem C7_cancel_amended_witness :
    cancel ⟨1, false, true⟩ [sampleOrder] 1
      = (CancelResult.ok, [{ sampleOrder with status := "cancelled" }]) := by
  have h := (C7_cancel_amended ⟨1, false, true⟩ [sampleOrder] 1).2.2.1
    sampleOrder (by decide) (Or.inl rfl)
  simpa using h

/-- C9 counterexample: with an empty order table, order id 1 makes
`generate_order_pdf_view` raise Http404 from `get_object_or_404`, not the
TypeError the claim announces for every order id. -/
theorem C9_pdf_view_counterexample :
    generate_order_pdf_view [] 1 = PdfCallResult.exc PyExc.http404 ∧
    generate_order_pdf_view [] 1 ≠ PdfCallResult.exc PyExc.typeError := by
  decide

/-- C9 (amended): for every order id matching an existing order,
`generate_order_pdf_view` raises a TypeError — it passes a single Order
object to the two-parameter `utils.generate_order_pdf` — and for every order
id whatsoever it never returns a PDF response (a nonexistent id raises
Http404 first); only the URL route bound directly to
`utils.generate_order_pdf` produces the PDF for an existing order. -/
theorem C9_pdf_view_type_error (orders : List Order) (order_id : Nat) :
    (∀ o, orders.find? (fun x => x.oid == order_id) = some o →
      generate_order_pdf_view orders order_id = PdfCallResult.exc PyExc.typeError) ∧
    (∀ num els, generate_order_pdf_view orders order_id
        ≠ PdfCallResult.response num els) ∧
    (∀ o, orders.find? (fun x => x.oid == order_id) = some o →
      pdf_url_route orders order_id
        = PdfCallResult.response o.order_number (generate_order_pdf_elements o)) := by
  refine ⟨fun o h => ?_, fun num els => ?_, fun o h => ?_⟩
  · simp [generate_order_pdf_view, h, generate_order_pdf]
  · cases h : orders.find? (fun x => x.oid == order_id) with
    | none => simp [generate_order_pdf_view, h]
    | some o => simp [generate_order_pdf_view, h, generate_order_pdf]
  · simp [pdf_url_route, generate_order_pdf, h]

/-- C9 witness: on a table holding the sample order, the view function raises
TypeError for id 1 while the URL route returns the PDF response. -/
theorem C9_pdf_view_type_error_witness :
    generate_order_pdf_view [sampleOrder] 1 = PdfCallResult.exc PyExc.typeError ∧
    pdf_url_route [sampleOrder] 1
      = PdfCallResult.response sampleOrder.order_number
          (generate_order_pdf_elements sampleOrder) :=
  ⟨(C9_pdf_view_type_error [sampleOrder] 1).1 sampleOrder (by decide),
   (C9_pdf_view_type_error [sampleOrder] 1).2.2 sampleOrder (by decide)⟩
